import Mathlib

/-!
# Verification of `examples/openai_client.py` (tenex-chat/tui)

Shallow embedding of the example OpenAI client script.  The script keeps a
conversation history as a Python list of `{"role": ..., "content": ...}`
dicts, streams assistant replies chunk by chunk, and runs an interactive
read-eval loop.  Python strings are modelled as Lean `String`; the Python
string operations `str.strip` and `str.lower` used by the script are
modelled explicitly over the character list (`pyStrip`, `pyLower`).
-/

namespace OpenAIClient

/-- The `role` field of a message dict: the script only ever creates
`"user"` and `"assistant"` roles. -/
inductive Role where
  | user
  | assistant
deriving DecidableEq, Repr

/-- One `{"role": r, "content": c}` dict appended to the `messages` list. -/
structure Message where
  role : Role
  content : String
deriving DecidableEq, Repr

/-- Whitespace test used by Python `str.strip()` (restricted to the ASCII
whitespace characters Lean knows about). -/
def isPySpace (c : Char) : Bool := c.isWhitespace

/-- Python `str.strip()`: remove leading and trailing whitespace. -/
def pyStrip (s : String) : String :=
  ⟨((s.data.dropWhile isPySpace).reverse.dropWhile isPySpace).reverse⟩

/-- Python `str.lower()` (ASCII case folding, as used on `user_input`). -/
def pyLower (s : String) : String := ⟨s.data.map Char.toLower⟩

/-- Python truthiness of `chunk.choices[0].delta.content`: the field is an
`Optional[str]`; `None` and `""` are falsy. -/
def truthy : Option String → Bool
  | none => false
  | some s => if s = "" then false else true

/-- One iteration of the `for chunk in stream` loop (lines 119-123 of the
script): if the delta content is truthy it is printed and appended to the
accumulator `assistant_message`.  State is `(assistant_message, printed)`
where `printed` is the ordered list of strings written to stdout. -/
def chunkStep (st : String × List String) (c : Option String) :
    String × List String :=
  if truthy c then (st.1 ++ c.getD "", st.2 ++ [c.getD ""]) else st

/-- Consuming a whole fragment stream: fold `chunkStep` over the chunks in
arrival order, starting from `assistant_message = ""` and nothing printed. -/
def consumeStream (frags : List (Option String)) : String × List String :=
  frags.foldl chunkStep ("", [])

/-- The content a single chunk contributes, if truthy. -/
def fragContent? : Option String → Option String
  | none => none
  | some s => if s = "" then none else some s

/-- The non-empty contents of a fragment stream, in arrival order. -/
def nonEmptyContents (frags : List (Option String)) : List String :=
  frags.filterMap fragContent?

/-- Concatenation of a list of strings, in order. -/
def concatList : List String → String
  | [] => ""
  | s :: rest => s ++ concatList rest

/-- Outcome of `client.chat.completions.create(...)` plus the subsequent
iteration over the stream: either the stream completes successfully having
yielded `frags`, or the call raises somewhere after delivering the chunks in
`delivered` (`delivered = []` covers a failure of `create` itself). -/
inductive StreamResult where
  | success (frags : List (Option String))
  | failure (delivered : List (Option String))
deriving DecidableEq, Repr

/-- Observable outcome of one iteration of the `while True` loop in
`interactive_chat`: `terminated` models `break`, `continued` models falling
through to the next iteration (or `continue`), `failed` models an exception
escaping the loop.  Each carries the `messages` history after the iteration
and the assistant text printed during it. -/
inductive StepResult where
  | terminated (history : List Message) (printed : List String)
  | continued (history : List Message) (printed : List String)
  | failed (history : List Message) (printed : List String)
deriving DecidableEq, Repr

/-- The history component of a step outcome. -/
def StepResult.history : StepResult → List Message
  | .terminated h _ => h
  | .continued h _ => h
  | .failed h _ => h

/-- One iteration of the interactive loop (lines 97-130 of the script).
`rawInput = none` models `input()` hitting end of input, which in Python
raises `EOFError`; the loop has no handler, so the exception escapes
(`failed`).  Otherwise the raw line is stripped, checked against the quit
sentinel (`.lower() == 'quit'`), checked for emptiness, and only then is the
user message appended and the stream consumed.  On a stream failure the
exception escapes with the user message already in `messages` and the
partial output already printed; on success the accumulated reply is appended
as an assistant message. -/
def interactiveStep (history : List Message) (rawInput : Option String)
    (stream : StreamResult) : StepResult :=
  match rawInput with
  | none => .failed history []
  | some raw =>
    let user_input := pyStrip raw
    if pyLower user_input = "quit" then
      .terminated history []
    else if user_input = "" then
      .continued history []
    else
      let history1 := history ++ [⟨Role.user, user_input⟩]
      match stream with
      | .failure delivered => .failed history1 (consumeStream delivered).2
      | .success frags =>
        let r := consumeStream frags
        .continued (history1 ++ [⟨Role.assistant, r.1⟩]) r.2

/-- An environment, mapping variable names to optional values
(`os.getenv`). -/
abbrev Env : Type := String → Option String

/-- `SERVER_URL = os.getenv("TENEX_SERVER_URL", "http://127.0.0.1:3000")`. -/
def serverUrl (env : Env) : String :=
  (env "TENEX_SERVER_URL").getD "http://127.0.0.1:3000"

/-- `PROJECT_DTAG = os.getenv("TENEX_PROJECT_DTAG", "your-project-dtag")`. -/
def projectDtag (env : Env) : String :=
  (env "TENEX_PROJECT_DTAG").getD "your-project-dtag"

/-- The sentinel default value of `PROJECT_DTAG`. -/
def sentinelDtag : String := "your-project-dtag"

/-- The warning block printed by `main` when `PROJECT_DTAG` equals the
sentinel. -/
def dtagWarning : List String :=
  ["⚠️  Warning: PROJECT_DTAG is not set!",
   "Set it via environment variable: export TENEX_PROJECT_DTAG=your-actual-project-dtag",
   "Or edit this script to set the PROJECT_DTAG variable.",
   ""]

/-- The banner `main` prints before anything else. -/
def mainBanner (env : Env) : List String :=
  ["TENEX OpenAI Client Examples",
   "Server: " ++ serverUrl env,
   "Project: " ++ projectDtag env,
   String.mk (List.replicate 50 '='),
   ""]

/-- One example call made inside the `try` block of `main`, abstracted by
its observable behaviour: the lines it prints before returning or raising,
and `failure = some msg` when it raises an exception rendered as `msg`. -/
structure ExampleRun where
  printed : List String
  failure : Option String
deriving DecidableEq, Repr

/-- The remediation checklist printed by the `except` handler in `main`. -/
def checklist : List String :=
  ["\nMake sure:",
   "1. TENEX server is running: TENEX_NSEC=nsec1... tenex-tui --server",
   "2. PROJECT_DTAG is correct",
   "3. The project exists and has an agent online"]

/-- The first line of the `except` handler: `f"\n❌ Error: {e}"`. -/
def errorLine (msg : String) : String := "\n❌ Error: " ++ msg

/-- Running the example calls in order, stopping at the first exception:
returns the accumulated output and the exception, if any.  This is the body
of the `try` block. -/
def runBody : List ExampleRun → List String × Option String
  | [] => ([], none)
  | e :: rest =>
    match e.failure with
    | some m => (e.printed, some m)
    | none =>
      let r := runBody rest
      (e.printed ++ r.1, r.2)

/-- The `try`/`except` of `main`: any exception from the examples is caught
exactly here and converted into the diagnostic line plus the checklist; the
function always returns normally (clean termination, no retry). -/
def mainTry (examples : List ExampleRun) : List String :=
  match runBody examples with
  | (out, none) => out
  | (out, some m) => out ++ [errorLine m] ++ checklist

/-- The complete output of `main`: banner, then (conditionally) the sentinel
warning, then the `try` block. -/
def mainOutput (env : Env) (examples : List ExampleRun) : List String :=
  mainBanner env ++
    (if projectDtag env = sentinelDtag then dtagWarning else []) ++
    mainTry examples

/-! ## Helper lemmas -/

/-- Splitting off the head of `nonEmptyContents`. -/
theorem nonEmptyContents_cons (c : Option String) (F : List (Option String)) :
    nonEmptyContents (c :: F) =
      (if truthy c then [c.getD ""] else []) ++ nonEmptyContents F := by
  cases c with
  | none => simp [nonEmptyContents, fragContent?, truthy]
  | some s =>
    by_cases h : s = "" <;>
      simp [nonEmptyContents, fragContent?, truthy, h]

/-- Folding `chunkStep` from an arbitrary state appends the concatenation of
the truthy contents to the accumulator and the truthy contents themselves to
the print log. -/
theorem foldl_chunkStep (F : List (Option String)) (acc : String)
    (out : List String) :
    F.foldl chunkStep (acc, out) =
      (acc ++ concatList (nonEmptyContents F), out ++ nonEmptyContents F) := by
  induction F generalizing acc out with
  | nil => simp [nonEmptyContents, concatList]
  | cons c F ih =>
    rw [List.foldl_cons]
    by_cases h : truthy c
    · rw [show chunkStep (acc, out) c = (acc ++ c.getD "", out ++ [c.getD ""]) by
        simp [chunkStep, h]]
      rw [ih, nonEmptyContents_cons, if_pos h]
      simp [concatList, String.append_assoc]
    · rw [show chunkStep (acc, out) c = (acc, out) by simp [chunkStep, h]]
      rw [ih, nonEmptyContents_cons, if_neg h]
      simp

/-- Dropping a satisfied run is idempotent. -/
theorem dropWhile_dropWhile (p : α → Bool) (l : List α) :
    (l.dropWhile p).dropWhile p = l.dropWhile p := by
  induction l with
  | nil => rfl
  | cons a l ih =>
    by_cases h : p a
    · simp [List.dropWhile_cons, h, ih]
    · simp [List.dropWhile_cons, h]

/-- If a list has no leading `p`-run, then removing its trailing `p`-run
leaves it with no leading `p`-run. -/
theorem dropWhile_of_rstrip (p : α → Bool) (l : List α)
    (h : l.dropWhile p = l) :
    ((l.reverse.dropWhile p).reverse).dropWhile p =
      (l.reverse.dropWhile p).reverse := by
  cases l with
  | nil => simp
  | cons a t =>
    have ha : p a = false := by
      cases hpa : p a with
      | false => rfl
      | true =>
        exfalso
        have hlen := congrArg List.length h
        rw [List.dropWhile_cons, if_pos hpa] at hlen
        have hle := (List.dropWhile_sublist (l := t) p).length_le
        simp at hlen
        omega
    rw [List.reverse_cons, List.dropWhile_append]
    by_cases hemp : (t.reverse.dropWhile p).isEmpty
    · rw [if_pos hemp]
      simp [List.dropWhile_cons, ha]
    · rw [if_neg hemp]
      rw [List.reverse_append]
      simp [List.dropWhile_cons, ha]

/-- Python `strip` is idempotent. -/
theorem pyStrip_idem (s : String) : pyStrip (pyStrip s) = pyStrip s := by
  unfold pyStrip
  congr 1
  have h1 : (s.data.dropWhile isPySpace).dropWhile isPySpace
      = s.data.dropWhile isPySpace := dropWhile_dropWhile isPySpace s.data
  have h2 := dropWhile_of_rstrip isPySpace (s.data.dropWhile isPySpace) h1
  rw [h2, List.reverse_reverse, dropWhile_dropWhile]

/-- A list none of whose elements satisfies `p` is untouched by
`dropWhile`. -/
theorem dropWhile_eq_self_of_all (p : α → Bool) (l : List α)
    (h : ∀ c ∈ l, p c = false) : l.dropWhile p = l := by
  cases l with
  | nil => rfl
  | cons a t =>
    rw [List.dropWhile_cons, if_neg]
    simp [h a (by simp)]

/-- A string containing no whitespace is untouched by `pyStrip`. -/
theorem pyStrip_eq_self_of_no_space (s : String)
    (h : ∀ c ∈ s.data, isPySpace c = false) : pyStrip s = s := by
  unfold pyStrip
  rw [dropWhile_eq_self_of_all _ _ h,
    dropWhile_eq_self_of_all _ _ (by
      intro c hc
      exact h c (List.mem_reverse.mp hc)),
    List.reverse_reverse]

/-- A string whose lowercasing is `"quit"` contains no whitespace. -/
theorem no_space_of_pyLower_quit (raw : String) (h : pyLower raw = "quit") :
    ∀ c ∈ raw.data, isPySpace c = false := by
  intro c hc
  have hmap : raw.data.map Char.toLower = "quit".data := congrArg String.data h
  have hmem : Char.toLower c ∈ "quit".data := by
    rw [← hmap]
    exact List.mem_map_of_mem Char.toLower hc
  cases hsp : isPySpace c with
  | false => rfl
  | true =>
    exfalso
    have hws := hsp
    simp only [isPySpace, Char.isWhitespace, Bool.or_eq_true, decide_eq_true_eq] at hws
    rcases hws with ((h' | h') | h') | h' <;> subst h' <;> revert hmem <;> decide

/-- A stream whose every chunk is falsy accumulates nothing and prints
nothing. -/
theorem consumeStream_all_falsy (frags : List (Option String))
    (h : ∀ c ∈ frags, truthy c = false) : consumeStream frags = ("", []) := by
  have hnil : nonEmptyContents frags = [] := by
    rw [nonEmptyContents, List.filterMap_eq_nil_iff]
    intro c hc
    have := h c hc
    cases c with
    | none => rfl
    | some s =>
      simp only [truthy] at this
      simp only [fragContent?]
      split at this
      · simp [*]
      · simp at this
  unfold consumeStream
  rw [foldl_chunkStep, hnil]
  simp [concatList]

/-! ## Claims -/

/-- C2: for every finite sequence of fragments consumed by an exchange, the
accumulated assistant reply equals the concatenation of exactly the
non-empty-content fragments in arrival order, the rendered output equals
that same sequence in the same order, and fragments with empty (`some ""`)
or absent (`none`) content contribute nothing to the reply and produce no
output. -/
theorem reply_concat_of_nonempty_fragments (F : List (Option String)) :
    (consumeStream F).1 = concatList (nonEmptyContents F) ∧
    (consumeStream F).2 = nonEmptyContents F ∧
    ∀ G : List (Option String),
      consumeStream (G ++ [none]) = consumeStream G ∧
      consumeStream (G ++ [some ""]) = consumeStream G := by
  refine ⟨?_, ?_, ?_⟩
  · unfold consumeStream
    rw [foldl_chunkStep]
    simp
  · unfold consumeStream
    rw [foldl_chunkStep]
    simp
  · intro G
    constructor <;>
      · unfold consumeStream
        rw [List.foldl_append]
        simp [chunkStep, truthy]

/-- C1 counterexample: starting from an empty history and input `"Hi"`, a
stream that fails after delivering one fragment leaves the triggering user
message in the history, so the claim that a failed stream appends nothing
is false on the code. -/
theorem failed_stream_cex :
    (interactiveStep [] (some "Hi") (.failure [some "He"])).history
      = [⟨Role.user, "Hi"⟩] ∧
    (interactiveStep [] (some "Hi") (.failure [some "He"])).history ≠ [] := by
  decide

/-- C1 (amended): in own-history mode the triggering user message is
appended before the stream is consumed; if the stream fails after any
number of fragments, the loop iteration exits with the user message in the
history but with no assistant message, partial or otherwise — the assistant
message is appended only after the stream completes successfully. -/
theorem failed_stream_appends_user_only (history : List Message) (raw : String)
    (delivered : List (Option String))
    (hq : pyLower (pyStrip raw) ≠ "quit") (he : pyStrip raw ≠ "") :
    interactiveStep history (some raw) (.failure delivered) =
      .failed (history ++ [⟨Role.user, pyStrip raw⟩])
        (consumeStream delivered).2 := by
  simp [interactiveStep, hq, he]

/-- C1 witness: concrete instance of `failed_stream_appends_user_only`. -/
theorem failed_stream_appends_user_only_witness :
    interactiveStep [] (some "Hi") (.failure [some "He"]) =
      .failed ([] ++ [⟨Role.user, pyStrip "Hi"⟩])
        (consumeStream [some "He"]).2 :=
  failed_stream_appends_user_only [] "Hi" [some "He"] (by decide) (by decide)

/-- C3: the history produced by any loop iteration extends the incoming
history — its first `history.length` entries are the old history unchanged,
so history only ever grows by appending — and a successfully completed
own-history exchange appends exactly the new user message immediately
followed by the assistant message that answered it. -/
theorem history_append_only (history : List Message) (rawInput : Option String)
    (s : StreamResult) :
    (interactiveStep history rawInput s).history.take history.length
      = history ∧
    (∀ raw frags, rawInput = some raw → s = .success frags →
      pyLower (pyStrip raw) ≠ "quit" → pyStrip raw ≠ "" →
      interactiveStep history rawInput s =
        .continued (history ++ [⟨Role.user, pyStrip raw⟩,
            ⟨Role.assistant, (consumeStream frags).1⟩])
          (consumeStream frags).2) := by
  constructor
  · match rawInput with
    | none => simp [interactiveStep, StepResult.history]
    | some raw =>
      by_cases hq : pyLower (pyStrip raw) = "quit"
      · simp [interactiveStep, hq, StepResult.history]
      · by_cases he : pyStrip raw = ""
        · have h2 : ¬ pyLower "" = "quit" := by decide
          simp [interactiveStep, hq, he, h2, StepResult.history]
        · match s with
          | .failure d =>
            simp only [interactiveStep, if_neg hq, if_neg he, StepResult.history]
            exact List.take_left' rfl
          | .success f =>
            simp only [interactiveStep, if_neg hq, if_neg he, StepResult.history]
            rw [List.append_assoc]
            exact List.take_left' rfl
  · intro raw frags h1 h2 hq he
    subst h1
    subst h2
    simp [interactiveStep, hq, he]

/-- C3 witness: concrete instance of `history_append_only`. -/
theorem history_append_only_witness :
    (interactiveStep [⟨Role.user, "a"⟩, ⟨Role.assistant, "b"⟩] (some "Hi")
        (.success [some "He", some "llo"])).history.take 2
      = [⟨Role.user, "a"⟩, ⟨Role.assistant, "b"⟩] ∧
    interactiveStep [⟨Role.user, "a"⟩, ⟨Role.assistant, "b"⟩] (some "Hi")
        (.success [some "He", some "llo"]) =
      .continued ([⟨Role.user, "a"⟩, ⟨Role.assistant, "b"⟩] ++
          [⟨Role.user, pyStrip "Hi"⟩,
            ⟨Role.assistant, (consumeStream [some "He", some "llo"]).1⟩])
        (consumeStream [some "He", some "llo"]).2 :=
  ⟨(history_append_only [⟨Role.user, "a"⟩, ⟨Role.assistant, "b"⟩] (some "Hi")
      (.success [some "He", some "llo"])).1,
   (history_append_only [⟨Role.user, "a"⟩, ⟨Role.assistant, "b"⟩] (some "Hi")
      (.success [some "He", some "llo"])).2 "Hi" [some "He", some "llo"]
      rfl rfl (by decide) (by decide)⟩

/-- C6: any input that equals the quit keyword under case-insensitive exact
match terminates the loop, leaves the history untouched, and the outcome
does not depend on the stream — no remote call is consumed. -/
theorem quit_terminates_loop (history : List Message) (raw : String)
    (s : StreamResult) (h : pyLower raw = "quit") :
    interactiveStep history (some raw) s = .terminated history [] := by
  have hss : pyStrip raw = raw :=
    pyStrip_eq_self_of_no_space raw (no_space_of_pyLower_quit raw h)
  simp [interactiveStep, hss, h]

/-- C6 witness: `"quit"`, `"QUIT"` and `"Quit"` all terminate the loop with
history unchanged, whatever the stream would have produced. -/
theorem quit_terminates_loop_witness :
    interactiveStep [] (some "quit") (.success [some "x"])
      = .terminated [] [] ∧
    interactiveStep [⟨Role.user, "a"⟩] (some "QUIT") (.failure [some "y"])
      = .terminated [⟨Role.user, "a"⟩] [] ∧
    interactiveStep [] (some "Quit") (.success []) = .terminated [] [] :=
  ⟨quit_terminates_loop [] "quit" (.success [some "x"]) (by decide),
   quit_terminates_loop [⟨Role.user, "a"⟩] "QUIT" (.failure [some "y"])
     (by decide),
   quit_terminates_loop [] "Quit" (.success []) (by decide)⟩

/-- C7: empty or whitespace-only input falls through to the next prompt:
the iteration continues, the history is unchanged, nothing is printed, and
the outcome does not depend on the stream — no remote call is consumed. -/
theorem blank_input_reprompts (history : List Message) (raw : String)
    (s : StreamResult) (h : pyStrip raw = "") :
    interactiveStep history (some raw) s = .continued history [] := by
  have h1 : ¬ pyLower "" = "quit" := by decide
  simp [interactiveStep, h, h1]

/-- C7 witness: `""` and `"   "` both re-prompt with history unchanged. -/
theorem blank_input_reprompts_witness :
    interactiveStep [] (some "") (.success [some "x"]) = .continued [] [] ∧
    interactiveStep [⟨Role.user, "a"⟩] (some "   ") (.failure [])
      = .continued [⟨Role.user, "a"⟩] [] :=
  ⟨blank_input_reprompts [] "" (.success [some "x"]) (by decide),
   blank_input_reprompts [⟨Role.user, "a"⟩] "   " (.failure []) (by decide)⟩

/-- C8 counterexample: at end of input the iteration produces a `failed`
outcome — the `EOFError` raised by `input()` escapes the loop — which is
not the graceful `terminated` outcome the quit sentinel produces. -/
theorem eof_not_graceful_cex :
    interactiveStep [] none (.success []) = .failed [] [] ∧
    interactiveStep [] none (.success []) ≠ .terminated [] [] := by
  decide

/-- C8 (amended): an end-of-input signal makes the loop exit by an uncaught
`EOFError` escaping it (a failure, with history unchanged and nothing
printed), not through the graceful quit-sentinel path. -/
theorem eof_escapes_loop (history : List Message) (s : StreamResult) :
    interactiveStep history none s = .failed history [] := rfl

/-- C9: if the stream completes successfully but no chunk has truthy
content, the exchange still appends an assistant message with content `""`,
so the history gains exactly two messages (the user message, then the empty
assistant message) and nothing is printed from the stream. -/
theorem empty_reply_still_appended (history : List Message) (raw : String)
    (frags : List (Option String))
    (hq : pyLower (pyStrip raw) ≠ "quit") (he : pyStrip raw ≠ "")
    (hall : ∀ c ∈ frags, truthy c = false) :
    interactiveStep history (some raw) (.success frags) =
      .continued (history ++ [⟨Role.user, pyStrip raw⟩,
        ⟨Role.assistant, ""⟩]) [] ∧
    (interactiveStep history (some raw) (.success frags)).history.length
      = history.length + 2 := by
  have hc := consumeStream_all_falsy frags hall
  constructor
  · simp [interactiveStep, hq, he, hc]
  · simp [interactiveStep, hq, he, hc, StepResult.history]

/-- C9 witness: a stream of one `None` delta and one `""` delta yields an
empty assistant message that is still appended. -/
theorem empty_reply_still_appended_witness :
    interactiveStep [] (some "Hi") (.success [none, some ""]) =
      .continued ([] ++ [⟨Role.user, pyStrip "Hi"⟩, ⟨Role.assistant, ""⟩])
        [] ∧
    (interactiveStep [] (some "Hi")
        (.success [none, some ""])).history.length
      = List.length ([] : List Message) + 2 :=
  empty_reply_still_appended [] "Hi" [none, some ""] (by decide) (by decide)
    (by decide)

/-- C10: each loop iteration behaves exactly as it would on the
whitespace-stripped input — stripping happens before the quit test, the
emptiness test and the history append — and when an exchange does happen
the user message recorded at position `history.length` is the stripped
text, not the raw line. -/
theorem input_stripped_first (history : List Message) (raw : String)
    (s : StreamResult) :
    interactiveStep history (some raw) s =
      interactiveStep history (some (pyStrip raw)) s ∧
    (pyLower (pyStrip raw) ≠ "quit" → pyStrip raw ≠ "" →
      (interactiveStep history (some raw) s).history.take
          (history.length + 1) =
        history ++ [⟨Role.user, pyStrip raw⟩]) := by
  constructor
  · unfold interactiveStep
    dsimp only
    rw [pyStrip_idem]
  · intro hq he
    match s with
    | .failure d =>
      unfold interactiveStep
      dsimp only
      rw [if_neg hq, if_neg he]
      dsimp only [StepResult.history]
      exact List.take_of_length_le (by simp)
    | .success f =>
      unfold interactiveStep
      dsimp only
      rw [if_neg hq, if_neg he]
      dsimp only [StepResult.history]
      exact List.take_left' (by simp)

/-- C10 witness: concrete instance of `input_stripped_first`. -/
theorem input_stripped_first_witness :
    interactiveStep [] (some "  Hi  ") (.success [some "Hello"]) =
      interactiveStep [] (some (pyStrip "  Hi  "))
        (.success [some "Hello"]) ∧
    (interactiveStep [] (some "  Hi  ")
          (.success [some "Hello"])).history.take
        (List.length ([] : List Message) + 1)
      = [] ++ [⟨Role.user, pyStrip "  Hi  "⟩] :=
  ⟨(input_stripped_first [] "  Hi  " (.success [some "Hello"])).1,
   (input_stripped_first [] "  Hi  " (.success [some "Hello"])).2
     (by decide) (by decide)⟩

/-- C4 counterexample: with environment variables literally named
`SERVER_URL` and `PROJECT_DTAG` set (and nothing else), the script still
uses the fallback defaults, because it reads `TENEX_SERVER_URL` and
`TENEX_PROJECT_DTAG`. -/
theorem config_env_names_cex :
    serverUrl (fun k =>
        if k = "SERVER_URL" then some "http://example.com:9999"
        else if k = "PROJECT_DTAG" then some "my-project" else none)
      = "http://127.0.0.1:3000" ∧
    serverUrl (fun k =>
        if k = "SERVER_URL" then some "http://example.com:9999"
        else if k = "PROJECT_DTAG" then some "my-project" else none)
      ≠ "http://example.com:9999" ∧
    projectDtag (fun k =>
        if k = "SERVER_URL" then some "http://example.com:9999"
        else if k = "PROJECT_DTAG" then some "my-project" else none)
      = "your-project-dtag" := by
  decide

/-- C4 (amended): configuration is read from the environment variables
`TENEX_SERVER_URL` and `TENEX_PROJECT_DTAG`; when unset they default to
`http://127.0.0.1:3000` and the sentinel `"your-project-dtag"`, when set
their values are used verbatim, and whenever the sentinel value is in
effect the warning block is printed after the banner and before the
examples run. -/
theorem config_from_tenex_env (env : Env) :
    (env "TENEX_SERVER_URL" = none →
      serverUrl env = "http://127.0.0.1:3000") ∧
    (env "TENEX_PROJECT_DTAG" = none → projectDtag env = sentinelDtag) ∧
    (∀ v, env "TENEX_SERVER_URL" = some v → serverUrl env = v) ∧
    (∀ v, env "TENEX_PROJECT_DTAG" = some v → projectDtag env = v) ∧
    (∀ examples, projectDtag env = sentinelDtag →
      mainOutput env examples
        = mainBanner env ++ dtagWarning ++ mainTry examples) := by
  refine ⟨?_, ?_, ?_, ?_, ?_⟩
  · intro h
    simp [serverUrl, h]
  · intro h
    simp [projectDtag, sentinelDtag, h]
  · intro v h
    simp [serverUrl, h]
  · intro v h
    simp [projectDtag, h]
  · intro examples h
    simp [mainOutput, h]

/-- C4 witness: concrete instance of `config_from_tenex_env` on the empty
environment. -/
theorem config_from_tenex_env_witness :
    serverUrl (fun _ => none) = "http://127.0.0.1:3000" ∧
    projectDtag (fun _ => none) = sentinelDtag ∧
    mainOutput (fun _ => none) []
      = mainBanner (fun _ => none) ++ dtagWarning ++ mainTry [] :=
  ⟨(config_from_tenex_env (fun _ => none)).1 rfl,
   (config_from_tenex_env (fun _ => none)).2.1 rfl,
   (config_from_tenex_env (fun _ => none)).2.2.2.2 [] (by decide)⟩

/-- The `try` body stops at the first raising example: everything before it
runs and prints, the raising example prints what it printed before raising,
and nothing after it runs. -/
theorem runBody_first_failure (pre : List ExampleRun) (e : ExampleRun)
    (post : List ExampleRun) (m : String)
    (hpre : ∀ x ∈ pre, x.failure = none) (he : e.failure = some m) :
    runBody (pre ++ e :: post)
      = ((pre.map ExampleRun.printed).flatten ++ e.printed, some m) := by
  induction pre with
  | nil => simp [runBody, he]
  | cons x pre ih =>
    have hx : x.failure = none := hpre x (by simp)
    rw [List.cons_append]
    show runBody (x :: (pre ++ e :: post)) = _
    rw [show runBody (x :: (pre ++ e :: post))
        = (match x.failure with
           | some m => (x.printed, some m)
           | none =>
             let r := runBody (pre ++ e :: post)
             (x.printed ++ r.1, r.2)) from rfl]
    rw [hx]
    rw [ih (fun y hy => hpre y (by simp [hy]))]
    simp

/-- C5: whatever examples ran and whichever of them raises, the exception
reaches exactly the one handler in the driver: each example before the
failing one runs once, the failing one is not retried, the examples after
it never run, and the output ends with the human-readable error line
followed by the checklist of likely causes — after which `mainTry` returns
normally (clean termination). -/
theorem failure_caught_once_at_driver (pre : List ExampleRun)
    (e : ExampleRun) (post : List ExampleRun) (m : String)
    (hpre : ∀ x ∈ pre, x.failure = none) (he : e.failure = some m) :
    mainTry (pre ++ e :: post)
      = (pre.map ExampleRun.printed).flatten ++ e.printed
          ++ [errorLine m] ++ checklist := by
  unfold mainTry
  rw [runBody_first_failure pre e post m hpre he]

/-- C5 witness: a successful first example followed by a raising second one;
the third example's output never appears and the diagnostic plus checklist
close the run. -/
theorem failure_caught_once_at_driver_witness :
    mainTry [ExampleRun.mk ["ex1 out"] none,
        ExampleRun.mk ["ex2 out"] (some "Connection refused"),
        ExampleRun.mk ["ex3 out"] none]
      = ([ExampleRun.mk ["ex1 out"] none].map ExampleRun.printed).flatten
          ++ ["ex2 out"] ++ [errorLine "Connection refused"] ++ checklist :=
  failure_caught_once_at_driver [ExampleRun.mk ["ex1 out"] none]
    (ExampleRun.mk ["ex2 out"] (some "Connection refused"))
    [ExampleRun.mk ["ex3 out"] none]
    "Connection refused" (by simp) rfl

end OpenAIClient
